import Mathlib

/-!
Shallow embedding of the token-caching authentication core of
`si_mcp_server_oss` (files `utils.py` and the tool layer in `server.py`).

The embedded operations are:
  * `resolve_tenant_id` — credential resolution against the default tenant
    and the additional tenant→api-key mapping (`utils.py`, lines 101-125);
  * `fetch_token` — token-cache reuse/refresh (`utils.py`, lines 55-98);
  * `call_ibm_storageinsights_api` — authenticated GET returning parsed
    JSON or `None` on an empty body (`utils.py`, lines 128-166).

Python `None` is modelled by `Option.none`; a raised exception by an
explicit error outcome; the network by an explicit response argument
(the value the single HTTP call of the function would observe); the
process-wide `token_cache` dict by an association list threaded through
`fetch_token`; `time.time() * 1000` by an integer argument `now_ms`.
-/

namespace SiMcp

/-- A line written to the logger, tagged with the level used in the source. -/
inductive LogLine where
  | debug (msg : String)
  | info (msg : String)
  | error (msg : String)
  deriving Repr, DecidableEq

/-- Python `str(x)` for an optional string: `None` prints as "None". -/
def pyStr : Option String → String
  | some s => s
  | none => "None"

/-! ## Tenant registry and `resolve_tenant_id` -/

/-- The configuration read at process start (`settings.py` and the
`ADDITIONAL_TENANT_API_MAPPING` environment variable):
`os.getenv` returns `None` when a variable is unset, hence the options.
The additional mapping is a JSON object, so its keys are strings. -/
structure Settings where
  SI_TENANT_ID : Option String
  SI_API_KEY : Option String
  additional_tenant_api_mapping : List (String × String)
  deriving Repr, DecidableEq

/-- Python dict lookup `m.get(k, None)` on the additional mapping, for a key
that may be `None` (a JSON-object key is never `None`). -/
def lookupMap (m : List (String × String)) (k : Option String) : Option String :=
  match k with
  | none => none
  | some s =>
    match m with
    | [] => none
    | (k1, v1) :: rest => if k1 = s then some v1 else lookupMap rest (some s)

/-- Python `k in m` on the additional mapping. -/
def mapContains (m : List (String × String)) (k : Option String) : Bool :=
  (lookupMap m k).isSome

/-- Outcome of `resolve_tenant_id`: the returned pair, or the raised
`ValueError`. -/
inductive ResolveResult where
  | ok (si_tenant_id : Option String) (si_api_key : Option String)
  | valueError (msg : String)
  deriving Repr, DecidableEq

/-- `utils.resolve_tenant_id(tenant_id, logger)`.

```python
if tenant_id == SI_TENANT_ID:
    si_tenant_id = tenant_id
    si_api_key = SI_API_KEY
    logger.debug(f"Reconciled to default TENANT_ID {si_tenant_id}")
elif tenant_id in additional_tenant_api_mapping:
    si_tenant_id = tenant_id
    si_api_key = additional_tenant_api_mapping.get(si_tenant_id, None)
    logger.debug(f"Reconciled to alternate TENANT_ID {si_tenant_id}")
else:
    si_tenant_id = None
    si_api_key = None
    logger.error("Unlisted TENANT_ID")
    raise ValueError(f"Un-supported tenant ID: {tenant_id}")
return si_tenant_id, si_api_key
```
The second component of the result is the list of log lines emitted. -/
def resolve_tenant_id (cfg : Settings) (tenant_id : Option String) :
    ResolveResult × List LogLine :=
  if tenant_id = cfg.SI_TENANT_ID then
    (ResolveResult.ok tenant_id cfg.SI_API_KEY,
      [LogLine.debug ("Reconciled to default TENANT_ID " ++ pyStr tenant_id)])
  else if mapContains cfg.additional_tenant_api_mapping tenant_id then
    (ResolveResult.ok tenant_id (lookupMap cfg.additional_tenant_api_mapping tenant_id),
      [LogLine.debug ("Reconciled to alternate TENANT_ID " ++ pyStr tenant_id)])
  else
    (ResolveResult.valueError ("Un-supported tenant ID: " ++ pyStr tenant_id),
      [LogLine.error "Unlisted TENANT_ID"])

/-- The tool layer's omitted-argument defaulting (`server.py`:
`tenant_id_input: Optional[str] = SI_TENANT_ID`): when the caller omits the
argument, the default parameter value — the configured default tenant id —
is used; an explicitly supplied value (even `None`) is passed through. -/
def toolTenantArg (cfg : Settings) (supplied : Option (Option String)) : Option String :=
  match supplied with
  | none => cfg.SI_TENANT_ID
  | some t => t

/-! ## Token cache and `fetch_token` -/

/-- One value of the `token_cache` dict: a per-tenant dict whose only keys
are ever `"token"` and `"expiration"`. A `none` field means the key is
absent or holds Python `None` (e.g. stored from a null JSON value) — the
two are indistinguishable to every read the code performs, since both the
reuse check and the token read use `.get`, which returns `None` either
way. -/
structure CacheEntry where
  token : Option String
  expiration : Option Int
  deriving Repr, DecidableEq

/-- The process-wide `token_cache`: tenant id → per-tenant dict, modelled as
an association list with distinct keys and insertion-order updates
(Python dict semantics). -/
abbrev TokenCache := List (String × CacheEntry)

/-- Python `cache[k]` / `cache.get(k)`. -/
def cacheLookup (c : TokenCache) (k : String) : Option CacheEntry :=
  match c with
  | [] => none
  | (k1, v1) :: rest => if k1 = k then some v1 else cacheLookup rest k

/-- Python `cache[k] = v`: overwrite in place, append when absent. -/
def cacheInsert (c : TokenCache) (k : String) (v : CacheEntry) : TokenCache :=
  match c with
  | [] => [(k, v)]
  | (k1, v1) :: rest =>
    if k1 = k then (k, v) :: rest else (k1, v1) :: cacheInsert rest k v

/-- The cache writes of the refresh path, statement by statement:

```python
if si_tenant_id not in token_cache:
    token_cache[si_tenant_id] = dict()
token_cache[si_tenant_id]["token"] = token
token_cache[si_tenant_id]["expiration"] = expiration
```
The values written are whatever the body subscripts produced — possibly
Python `None` (from a null JSON value); no validation happens. -/
def storeToken (c : TokenCache) (k : String) (tok : Option String) (exp : Option Int) :
    TokenCache :=
  let c1 := if (cacheLookup c k).isNone then cacheInsert c k ⟨none, none⟩ else c
  let e1 := (cacheLookup c1 k).getD ⟨none, none⟩
  let c2 := cacheInsert c1 k { e1 with token := tok }
  let e2 := (cacheLookup c2 k).getD ⟨none, none⟩
  cacheInsert c2 k { e2 with expiration := exp }

/-- A field of a parsed JSON object, as dict subscripting sees it: the key
may be absent (subscripting raises `KeyError`), present with value null
(subscripting returns `None`), or present with a typed value. -/
inductive JsonField (α : Type) where
  | absent
  | null
  | val (a : α)
  deriving Repr, DecidableEq

/-- The Python value obtained by subscripting a present key: `None` for a
null value, the value itself otherwise (`absent` never reaches this read —
subscripting an absent key raises first). -/
def JsonField.toOption {α : Type} : JsonField α → Option α
  | JsonField.absent => none
  | JsonField.null => none
  | JsonField.val a => some a

/-- The parsed `result` object of a 2xx token response, as the code reads it:
`data.get("result")["token"]` and `data.get("result")["expiration"]`. A
missing key raises `KeyError`; a present key yields its value, which may be
`None` for a null JSON value. -/
structure TokenResultBody where
  token : JsonField String
  expiration : JsonField Int
  deriving Repr, DecidableEq

/-- What the single `POST {base}/tenants/{id}/token` of `fetch_token`
observes:
  * `raised msg` — the try-block raised before the body was read: transport
    error or timeout from `client.post`, non-2xx from
    `response.raise_for_status()`, or a non-JSON body from `response.json()`;
  * `success result` — 2xx with a JSON body; `result` is
    `data.get("result")` (`none` when the key is absent or null). -/
inductive UpstreamTokenResponse where
  | raised (msg : String)
  | success (result : Option TokenResultBody)
  deriving Repr, DecidableEq

/-- A Python exception escaping `fetch_token`. `noneGtError` is the
`TypeError` of `None > time.time() * 1000` on the reuse check (raised
outside the try/except, so never logged); the others escape through
`raise e` in the except-block. -/
inductive PyExn where
  | noneGtError
  | subscriptError
  | keyError (key : String)
  | httpError (msg : String)
  deriving Repr, DecidableEq

/-- Python `str(e)` for the `f"... : {e}"` in the error log line. -/
def pyExnStr : PyExn → String
  | PyExn.noneGtError => "unsupported operand type for gt: NoneType and float"
  | PyExn.subscriptError => "NoneType object is not subscriptable"
  | PyExn.keyError k => k
  | PyExn.httpError m => m

/-- Return value of `fetch_token`: the token (`str | None`), or the
exception that escaped. -/
inductive FetchOutcome where
  | ok (token : Option String)
  | exn (e : PyExn)
  deriving Repr, DecidableEq

/-- Everything observable about one `fetch_token` call: its return value or
exception, the cache it leaves behind, the log lines it emitted, and how
many network requests it issued. -/
structure FetchResult where
  result : FetchOutcome
  cache : TokenCache
  log : List LogLine
  networkCalls : Nat
  deriving Repr, DecidableEq

/-- The else-branch (refresh path) of `fetch_token`: one POST to the token
endpoint, then

```python
response.raise_for_status()
data = response.json()
token = data.get("result")["token"]
expiration = data.get("result")["expiration"]
if si_tenant_id not in token_cache:
    token_cache[si_tenant_id] = dict()
token_cache[si_tenant_id]["token"] = token
token_cache[si_tenant_id]["expiration"] = expiration
logger.info(f"Fetched new token for tenant {si_tenant_id}")
```
wrapped in `try ... except Exception as e: logger.error(...); raise e`.
Subscripting raises `KeyError` only for an absent key; a present key with a
null value yields `None`, which is stored and returned unvalidated. -/
def refreshToken (cache : TokenCache) (si_tenant_id : String)
    (response : UpstreamTokenResponse) : FetchResult :=
  let creating := LogLine.info ("Creating new token for tenant " ++ si_tenant_id)
  let failLine := fun (e : PyExn) =>
    LogLine.error ("Token fetch failed for tenant " ++ si_tenant_id ++ ": " ++ pyExnStr e)
  match response with
  | UpstreamTokenResponse.raised m =>
    { result := FetchOutcome.exn (PyExn.httpError m), cache := cache,
      log := [creating, failLine (PyExn.httpError m)], networkCalls := 1 }
  | UpstreamTokenResponse.success none =>
    { result := FetchOutcome.exn PyExn.subscriptError, cache := cache,
      log := [creating, failLine PyExn.subscriptError], networkCalls := 1 }
  | UpstreamTokenResponse.success (some body) =>
    if body.token = JsonField.absent then
      { result := FetchOutcome.exn (PyExn.keyError "token"), cache := cache,
        log := [creating, failLine (PyExn.keyError "token")], networkCalls := 1 }
    else if body.expiration = JsonField.absent then
      { result := FetchOutcome.exn (PyExn.keyError "expiration"), cache := cache,
        log := [creating, failLine (PyExn.keyError "expiration")], networkCalls := 1 }
    else
      { result := FetchOutcome.ok body.token.toOption,
        cache := storeToken cache si_tenant_id body.token.toOption body.expiration.toOption,
        log := [creating,
          LogLine.info ("Fetched new token for tenant " ++ si_tenant_id)],
        networkCalls := 1 }

/-- `utils.fetch_token(si_tenant_id, si_api_key, logger)`.

```python
if si_tenant_id in token_cache and token_cache[si_tenant_id].get("expiration") > (
    time.time() * 1000
):
    logger.info(f"Re-using existing token for tenant {si_tenant_id}")
    token = token_cache[si_tenant_id].get("token")
else:
    ...refresh path...
return token
```
`now_ms` stands for `time.time() * 1000`; `response` is what the POST of the
refresh path would observe (unused when the cached token is reused);
`si_api_key` only enters the `x-api-key` request header, which the
`response` argument abstracts. When the entry exists but has no
`"expiration"` key, `None > now_ms` raises a `TypeError` before anything is
logged. -/
def fetch_token (cache : TokenCache) (si_tenant_id : String)
    (si_api_key : Option String)
    (now_ms : Int) (response : UpstreamTokenResponse) : FetchResult :=
  match cacheLookup cache si_tenant_id with
  | some entry =>
    match entry.expiration with
    | some exp =>
      if exp > now_ms then
        { result := FetchOutcome.ok entry.token, cache := cache,
          log := [LogLine.info ("Re-using existing token for tenant " ++ si_tenant_id)],
          networkCalls := 0 }
      else
        refreshToken cache si_tenant_id response
    | none =>
      { result := FetchOutcome.exn PyExn.noneGtError, cache := cache,
        log := [], networkCalls := 0 }
  | none => refreshToken cache si_tenant_id response

/-! ## `call_ibm_storageinsights_api` -/

/-- A JSON value, for the parsed body of a downstream 2xx response. -/
inductive Json where
  | null
  | bool (b : Bool)
  | num (n : Int)
  | str (s : String)
  | arr (xs : List Json)
  | obj (fields : List (String × Json))
  deriving Repr

/-- What the downstream `client.get(url, params=..., headers=...)` of
`call_ibm_storageinsights_api` observes:
  * `raised msg` — transport error or timeout from `client.get`, non-2xx
    from `response.raise_for_status()`, or a non-empty body that
    `response.json()` cannot parse;
  * `success content` — 2xx; `content` is `none` when `response.content` is
    empty, and the parsed JSON body otherwise. -/
inductive ApiGetResponse where
  | raised (msg : String)
  | success (content : Option Json)
  deriving Repr

/-- Return value of `call_ibm_storageinsights_api` (`dict | None`), or the
exception that escaped. -/
inductive ApiOutcome where
  | ok (result : Option Json)
  | exn (e : PyExn)
  deriving Repr

/-- Everything observable about one `call_ibm_storageinsights_api` call. -/
structure ApiCallResult where
  result : ApiOutcome
  cache : TokenCache
  log : List LogLine
  deriving Repr

/-- `utils.call_ibm_storageinsights_api(url, logger, params, tenant_id, api_key)`.

```python
logger.info(f"Fetch the token for SI API invocation for tenant id {tenant_id}")
token = await fetch_token(tenant_id, api_key, logger)
headers = {"x-api-token": f"{token}", ...}
async with httpx.AsyncClient() as client:
    try:
        response = await client.get(url, params=params, headers=headers, timeout=100.0)
        response.raise_for_status()
        if response.content:
            result = response.json()
        else:
            result = None
        logger.debug("Received API response")
    except Exception as e:
        logger.error(f"Encountered error in API call. Error: {e}")
        raise e
return result
```
An exception in `fetch_token` escapes before the try-block is entered. The
`url` and `params` only shape the request, which the `apiResponse` argument
abstracts. -/
def call_ibm_storageinsights_api (cache : TokenCache)
    (tenant_id : String) (api_key : Option String) (now_ms : Int)
    (tokenResponse : UpstreamTokenResponse) (apiResponse : ApiGetResponse) :
    ApiCallResult :=
  let fr := fetch_token cache tenant_id api_key now_ms tokenResponse
  let log0 :=
    LogLine.info ("Fetch the token for SI API invocation for tenant id " ++ tenant_id)
      :: fr.log
  match fr.result with
  | FetchOutcome.exn e =>
    { result := ApiOutcome.exn e, cache := fr.cache, log := log0 }
  | FetchOutcome.ok _token =>
    match apiResponse with
    | ApiGetResponse.raised m =>
      { result := ApiOutcome.exn (PyExn.httpError m), cache := fr.cache,
        log := log0 ++
          [LogLine.error ("Encountered error in API call. Error: " ++ m)] }
    | ApiGetResponse.success content =>
      { result := ApiOutcome.ok content, cache := fr.cache,
        log := log0 ++ [LogLine.debug "Received API response"] }

/-! ## Derived notions used by the theorems -/

/-- A per-tenant cache dict is well-formed when both `"token"` and
`"expiration"` are present. -/
def entryWF (e : CacheEntry) : Bool :=
  e.token.isSome && e.expiration.isSome

/-- Every entry of the token cache is well-formed. -/
def cacheWF (c : TokenCache) : Bool :=
  c.all (fun p => entryWF p.2)

/-- The keys of the additional tenant→api-key mapping. -/
def mapKeys (m : List (String × String)) : List String :=
  m.map Prod.fst

/-- The exception (if any) that the try-block of the refresh path raises for
a given upstream response, mirroring the order of the parse steps. -/
def responseFailure : UpstreamTokenResponse → Option PyExn
  | UpstreamTokenResponse.raised m => some (PyExn.httpError m)
  | UpstreamTokenResponse.success none => some PyExn.subscriptError
  | UpstreamTokenResponse.success (some b) =>
    if b.token = JsonField.absent then some (PyExn.keyError "token")
    else if b.expiration = JsonField.absent then some (PyExn.keyError "expiration")
    else none

/-! ## Helper lemmas about the cache operations -/

theorem cacheLookup_cacheInsert_self (c : TokenCache) (k : String) (v : CacheEntry) :
    cacheLookup (cacheInsert c k v) k = some v := by
  induction c with
  | nil => simp [cacheInsert, cacheLookup]
  | cons hd tl ih =>
    obtain ⟨k1, v1⟩ := hd
    by_cases h : k1 = k
    · simp [cacheInsert, cacheLookup, h]
    · simp [cacheInsert, cacheLookup, h, ih]

theorem cacheInsert_cacheInsert_self (c : TokenCache) (k : String) (v w : CacheEntry) :
    cacheInsert (cacheInsert c k v) k w = cacheInsert c k w := by
  induction c with
  | nil => simp [cacheInsert]
  | cons hd tl ih =>
    obtain ⟨k1, v1⟩ := hd
    by_cases h : k1 = k
    · simp [cacheInsert, h]
    · simp [cacheInsert, h, ih]

/-- The three cache-writing statements of the refresh path amount to one
overwrite of the tenant's entry with the two read values. -/
theorem storeToken_eq_cacheInsert (c : TokenCache) (k : String)
    (tok : Option String) (exp : Option Int) :
    storeToken c k tok exp = cacheInsert c k ⟨tok, exp⟩ := by
  unfold storeToken
  cases h : cacheLookup c k with
  | none =>
    simp [h, cacheLookup_cacheInsert_self, cacheInsert_cacheInsert_self]
  | some e =>
    obtain ⟨t0, x0⟩ := e
    simp [h, cacheLookup_cacheInsert_self, cacheInsert_cacheInsert_self]

/-- When the cached entry is absent or stale, `fetch_token` takes the
refresh path. -/
theorem fetch_token_stale_eq_refresh (cache : TokenCache) (tid : String)
    (key : Option String) (now : Int) (resp : UpstreamTokenResponse)
    (hstale : cacheLookup cache tid = none ∨
      ∃ entry x, cacheLookup cache tid = some entry ∧
        entry.expiration = some x ∧ x ≤ now) :
    fetch_token cache tid key now resp = refreshToken cache tid resp := by
  rcases hstale with h | ⟨entry, x, hl, hx, hle⟩
  · simp [fetch_token, h]
  · simp [fetch_token, hl, hx, not_lt.mpr hle]

theorem refreshToken_networkCalls (c : TokenCache) (tid : String)
    (resp : UpstreamTokenResponse) : (refreshToken c tid resp).networkCalls = 1 := by
  cases resp with
  | raised m => simp [refreshToken]
  | success r =>
    cases r with
    | none => simp [refreshToken]
    | some b =>
      obtain ⟨t0, x0⟩ := b
      by_cases ht : t0 = JsonField.absent
      · simp [refreshToken, ht]
      · by_cases hx : x0 = JsonField.absent <;> simp [refreshToken, ht, hx]

theorem cacheWF_cacheInsert (c : TokenCache) (k : String) (v : CacheEntry)
    (hc : cacheWF c = true) (hv : entryWF v = true) :
    cacheWF (cacheInsert c k v) = true := by
  induction c with
  | nil => simp [cacheInsert, cacheWF, hv]
  | cons hd tl ih =>
    obtain ⟨k1, v1⟩ := hd
    simp only [cacheWF, List.all_cons, Bool.and_eq_true] at hc
    by_cases h : k1 = k
    · simp only [cacheInsert, if_pos h, cacheWF, List.all_cons, Bool.and_eq_true]
      exact ⟨hv, hc.2⟩
    · have := ih hc.2
      simp only [cacheInsert, if_neg h, cacheWF, List.all_cons, Bool.and_eq_true]
      exact ⟨hc.1, this⟩

theorem entryWF_of_cacheLookup (c : TokenCache) (k : String) (e : CacheEntry) :
    cacheWF c = true → cacheLookup c k = some e → entryWF e = true := by
  induction c with
  | nil => intro _ he; simp [cacheLookup] at he
  | cons hd tl ih =>
    obtain ⟨k1, v1⟩ := hd
    intro hc he
    simp only [cacheWF, List.all_cons, Bool.and_eq_true] at hc
    by_cases h : k1 = k
    · simp [cacheLookup, h] at he
      exact he ▸ hc.1
    · simp [cacheLookup, h] at he
      exact ih hc.2 he

/-- Refresh-path case analysis on a well-formed cache: the result is never
the reuse-check `TypeError`; a failing response leaves the cache (hence its
well-formedness) unchanged; a success whose two fields hold non-null values
preserves well-formedness. (A success with a null field stores the `None`
and breaks well-formedness — see the C9 counterexample.) -/
theorem refreshToken_c9_cases (c : TokenCache) (tid : String) (resp : UpstreamTokenResponse)
    (hc : cacheWF c = true) :
    (refreshToken c tid resp).result ≠ FetchOutcome.exn PyExn.noneGtError ∧
    ((responseFailure resp).isSome = true →
      cacheWF (refreshToken c tid resp).cache = true) ∧
    (∀ tok exp,
      resp = UpstreamTokenResponse.success (some ⟨JsonField.val tok, JsonField.val exp⟩) →
      cacheWF (refreshToken c tid resp).cache = true) := by
  cases resp with
  | raised m =>
    refine ⟨by simp [refreshToken], fun _ => by simp [refreshToken, hc], ?_⟩
    intro tok exp h
    simp at h
  | success r =>
    cases r with
    | none =>
      refine ⟨by simp [refreshToken], fun _ => by simp [refreshToken, hc], ?_⟩
      intro tok exp h
      simp at h
    | some b =>
      obtain ⟨t0, x0⟩ := b
      by_cases ht : t0 = JsonField.absent
      · subst ht
        refine ⟨by simp [refreshToken], fun _ => by simp [refreshToken, hc], ?_⟩
        intro tok exp h
        simp at h
      · by_cases hx : x0 = JsonField.absent
        · subst hx
          refine ⟨by simp [refreshToken, ht], fun _ => by simp [refreshToken, ht, hc], ?_⟩
          intro tok exp h
          simp at h
        · refine ⟨by simp [refreshToken, ht, hx], ?_, ?_⟩
          · intro hf
            simp [responseFailure, ht, hx] at hf
          · intro tok exp h
            simp only [UpstreamTokenResponse.success.injEq, Option.some.injEq,
              TokenResultBody.mk.injEq] at h
            obtain ⟨h1, h2⟩ := h
            subst h1
            subst h2
            have hwf : cacheWF (cacheInsert c tid ⟨some tok, some exp⟩) = true :=
              cacheWF_cacheInsert c tid ⟨some tok, some exp⟩ hc (by simp [entryWF])
            simpa [refreshToken, storeToken_eq_cacheInsert, JsonField.toOption] using hwf

theorem lookupMap_isSome_eq_contains (m : List (String × String)) (s : String) :
    (lookupMap m (some s)).isSome = (mapKeys m).contains s := by
  induction m with
  | nil => simp [lookupMap, mapKeys]
  | cons hd tl ih =>
    obtain ⟨k1, v1⟩ := hd
    by_cases h : k1 = s
    · simp [lookupMap, mapKeys, h]
    · simp [lookupMap, mapKeys, h, ih, Ne.symm h]

theorem mapContains_congr_keys (m1 m2 : List (String × String)) (t : Option String)
    (h : mapKeys m1 = mapKeys m2) : mapContains m1 t = mapContains m2 t := by
  cases t with
  | none => simp [mapContains, lookupMap]
  | some s => simp [mapContains, lookupMap_isSome_eq_contains, h]

/-! ## Claim theorems -/

/-- Claim C4: for every tenant id that is neither the configured default
tenant id nor a key of the additional-tenant mapping, `resolve_tenant_id`
raises the `ValueError` whose message identifies the unrecognized tenant id,
and its only side effect is the error log line. -/
theorem resolve_tenant_id_unknown_fails
    (cfg : Settings) (t : Option String)
    (hdef : ¬ t = cfg.SI_TENANT_ID)
    (hmap : mapContains cfg.additional_tenant_api_mapping t = false) :
    resolve_tenant_id cfg t =
      (ResolveResult.valueError ("Un-supported tenant ID: " ++ pyStr t),
        [LogLine.error "Unlisted TENANT_ID"]) := by
  simp [resolve_tenant_id, hdef, hmap]

/-- Witness for C4: the tenant id "ghost" is neither the default "t1" nor a
key of the additional mapping, and resolution fails as stated. -/
theorem resolve_tenant_id_unknown_fails_witness :
    ¬ (some "ghost" : Option String) =
        (Settings.mk (some "t1") (some "defkey") [("t2", "k2")]).SI_TENANT_ID ∧
    mapContains (Settings.mk (some "t1") (some "defkey")
        [("t2", "k2")]).additional_tenant_api_mapping (some "ghost") = false ∧
    resolve_tenant_id (Settings.mk (some "t1") (some "defkey") [("t2", "k2")]) (some "ghost") =
      (ResolveResult.valueError ("Un-supported tenant ID: " ++ pyStr (some "ghost")),
        [LogLine.error "Unlisted TENANT_ID"]) :=
  ⟨by decide, by decide,
    resolve_tenant_id_unknown_fails (Settings.mk (some "t1") (some "defkey") [("t2", "k2")])
      (some "ghost") (by decide) (by decide)⟩

/-- Claim C5: when the supplied tenant id equals the configured default, or
the caller omits the argument (so the tool layer substitutes its default
parameter value, the configured default tenant id), resolution succeeds and
returns the default tenant id with the default api key. -/
theorem resolve_tenant_id_default_ok
    (cfg : Settings) (arg : Option (Option String))
    (harg : arg = none ∨ arg = some cfg.SI_TENANT_ID) :
    resolve_tenant_id cfg (toolTenantArg cfg arg) =
      (ResolveResult.ok cfg.SI_TENANT_ID cfg.SI_API_KEY,
        [LogLine.debug ("Reconciled to default TENANT_ID " ++ pyStr cfg.SI_TENANT_ID)]) := by
  rcases harg with rfl | rfl <;> simp [toolTenantArg, resolve_tenant_id]

/-- Witness for C5: with default tenant "t1", an omitted argument resolves
to the default credentials. -/
theorem resolve_tenant_id_default_ok_witness :
    ((none : Option (Option String)) = none ∨
      (none : Option (Option String)) =
        some (Settings.mk (some "t1") (some "defkey") [("t2", "k2")]).SI_TENANT_ID) ∧
    resolve_tenant_id (Settings.mk (some "t1") (some "defkey") [("t2", "k2")])
        (toolTenantArg (Settings.mk (some "t1") (some "defkey") [("t2", "k2")]) none) =
      (ResolveResult.ok (some "t1") (some "defkey"),
        [LogLine.debug ("Reconciled to default TENANT_ID " ++ pyStr (some "t1"))]) :=
  ⟨Or.inl rfl,
    resolve_tenant_id_default_ok (Settings.mk (some "t1") (some "defkey") [("t2", "k2")])
      none (Or.inl rfl)⟩

/-- Claim C7: the log output of `resolve_tenant_id` does not depend on any
api-key value — neither the default api key nor the values of the
additional mapping: two configurations agreeing on the default tenant id
and on the mapping's keys produce identical logs for every tenant id. -/
theorem resolve_tenant_id_log_noninterference
    (cfg1 cfg2 : Settings) (t : Option String)
    (hdef : cfg1.SI_TENANT_ID = cfg2.SI_TENANT_ID)
    (hkeys : mapKeys cfg1.additional_tenant_api_mapping
      = mapKeys cfg2.additional_tenant_api_mapping) :
    (resolve_tenant_id cfg1 t).2 = (resolve_tenant_id cfg2 t).2 := by
  have hc := mapContains_congr_keys cfg1.additional_tenant_api_mapping
    cfg2.additional_tenant_api_mapping t hkeys
  by_cases h1 : t = cfg1.SI_TENANT_ID
  · have h1b : t = cfg2.SI_TENANT_ID := by rw [← hdef]; exact h1
    simp [resolve_tenant_id, h1, h1b, hdef]
  · have h1b : ¬ t = cfg2.SI_TENANT_ID := by rw [← hdef]; exact h1
    by_cases h2 : mapContains cfg1.additional_tenant_api_mapping t = true
    · have h2b : mapContains cfg2.additional_tenant_api_mapping t = true := by
        rw [← hc]; exact h2
      simp [resolve_tenant_id, h1, h1b, h2, h2b]
    · have h2b : ¬ mapContains cfg2.additional_tenant_api_mapping t = true := by
        rw [← hc]; exact h2
      simp [resolve_tenant_id, h1, h1b, h2, h2b]

/-- Witness for C7: two configurations whose api keys differ everywhere
produce the same log for tenant "t2". -/
theorem resolve_tenant_id_log_noninterference_witness :
    (Settings.mk (some "t1") (some "keyA") [("t2", "x")]).SI_TENANT_ID =
      (Settings.mk (some "t1") (some "keyB") [("t2", "y")]).SI_TENANT_ID ∧
    mapKeys (Settings.mk (some "t1") (some "keyA") [("t2", "x")]).additional_tenant_api_mapping =
      mapKeys (Settings.mk (some "t1") (some "keyB") [("t2", "y")]).additional_tenant_api_mapping ∧
    (resolve_tenant_id (Settings.mk (some "t1") (some "keyA") [("t2", "x")]) (some "t2")).2 =
      (resolve_tenant_id (Settings.mk (some "t1") (some "keyB") [("t2", "y")]) (some "t2")).2 :=
  ⟨rfl, rfl,
    resolve_tenant_id_log_noninterference
      (Settings.mk (some "t1") (some "keyA") [("t2", "x")])
      (Settings.mk (some "t1") (some "keyB") [("t2", "y")]) (some "t2") rfl rfl⟩

/-- Claim C8: the default-tenant branch takes precedence — when the default
tenant id also appears as a key of the additional mapping,
`resolve_tenant_id` returns the default api key, not the mapping's value
for that id. -/
theorem resolve_tenant_id_default_precedence
    (cfg : Settings) (t : String)
    (hdef : cfg.SI_TENANT_ID = some t)
    (hmap : mapContains cfg.additional_tenant_api_mapping (some t) = true) :
    (resolve_tenant_id cfg (some t)).1 = ResolveResult.ok (some t) cfg.SI_API_KEY ∧
    (cfg.SI_API_KEY ≠ lookupMap cfg.additional_tenant_api_mapping (some t) →
      (resolve_tenant_id cfg (some t)).1
        ≠ ResolveResult.ok (some t) (lookupMap cfg.additional_tenant_api_mapping (some t))) := by
  have h1 : (resolve_tenant_id cfg (some t)).1 = ResolveResult.ok (some t) cfg.SI_API_KEY := by
    simp [resolve_tenant_id, hdef]
  refine ⟨h1, ?_⟩
  intro hne hcontra
  rw [h1] at hcontra
  simp only [ResolveResult.ok.injEq] at hcontra
  exact hne hcontra.2

/-- Witness for C8: the default tenant "t1" also appears in the additional
mapping with a different key; resolution returns the default key. -/
theorem resolve_tenant_id_default_precedence_witness :
    (Settings.mk (some "t1") (some "defkey") [("t1", "otherkey")]).SI_TENANT_ID = some "t1" ∧
    mapContains (Settings.mk (some "t1") (some "defkey")
        [("t1", "otherkey")]).additional_tenant_api_mapping (some "t1") = true ∧
    (resolve_tenant_id (Settings.mk (some "t1") (some "defkey") [("t1", "otherkey")])
        (some "t1")).1 = ResolveResult.ok (some "t1") (some "defkey") ∧
    (resolve_tenant_id (Settings.mk (some "t1") (some "defkey") [("t1", "otherkey")])
        (some "t1")).1 ≠ ResolveResult.ok (some "t1") (some "otherkey") := by
  have h := resolve_tenant_id_default_precedence
    (Settings.mk (some "t1") (some "defkey") [("t1", "otherkey")]) "t1" rfl (by decide)
  exact ⟨rfl, by decide, h.1, by
    have h2 := h.2 (by decide)
    simpa [lookupMap] using h2⟩

/-- Claim C10: an explicit `None` tenant id is not treated as omitted — with
a non-null default tenant id (and `None` never being a key of the JSON
mapping), `resolve_tenant_id None` raises the unsupported-tenant error; the
omitted-argument defaulting lives only in the tool layer's default
parameter value, which passes an explicit `None` through unchanged. -/
theorem resolve_tenant_id_none_not_defaulted
    (cfg : Settings)
    (hdef : cfg.SI_TENANT_ID ≠ none)
    (hmap : mapContains cfg.additional_tenant_api_mapping none = false) :
    resolve_tenant_id cfg none =
      (ResolveResult.valueError ("Un-supported tenant ID: " ++ pyStr none),
        [LogLine.error "Unlisted TENANT_ID"]) ∧
    toolTenantArg cfg (some none) = none ∧
    toolTenantArg cfg none = cfg.SI_TENANT_ID := by
  refine ⟨?_, rfl, rfl⟩
  have h1 : ¬ (none : Option String) = cfg.SI_TENANT_ID := fun h => hdef h.symm
  simp [resolve_tenant_id, h1, hmap]

/-- Witness for C10 at a concrete configuration with default tenant "t1". -/
theorem resolve_tenant_id_none_not_defaulted_witness :
    (Settings.mk (some "t1") (some "defkey") [("t2", "k2")]).SI_TENANT_ID ≠ none ∧
    mapContains (Settings.mk (some "t1") (some "defkey")
        [("t2", "k2")]).additional_tenant_api_mapping none = false ∧
    resolve_tenant_id (Settings.mk (some "t1") (some "defkey") [("t2", "k2")]) none =
      (ResolveResult.valueError ("Un-supported tenant ID: " ++ pyStr none),
        [LogLine.error "Unlisted TENANT_ID"]) ∧
    toolTenantArg (Settings.mk (some "t1") (some "defkey") [("t2", "k2")]) (some none) = none := by
  have h := resolve_tenant_id_none_not_defaulted
    (Settings.mk (some "t1") (some "defkey") [("t2", "k2")]) (by decide) (by decide)
  exact ⟨by decide, by decide, h.1, h.2.1⟩

/-- Claim C1: when the token cache holds an entry for the tenant whose
expiration is strictly greater than the current time in epoch-milliseconds,
`fetch_token` returns that entry's token, issues zero network calls, and
leaves the cache unchanged. -/
theorem fetch_token_reuses_valid_entry
    (cache : TokenCache) (tid : String) (key : Option String) (now : Int)
    (resp : UpstreamTokenResponse) (entry : CacheEntry) (exp : Int)
    (hl : cacheLookup cache tid = some entry)
    (hx : entry.expiration = some exp)
    (hgt : exp > now) :
    fetch_token cache tid key now resp =
      { result := FetchOutcome.ok entry.token, cache := cache,
        log := [LogLine.info ("Re-using existing token for tenant " ++ tid)],
        networkCalls := 0 } := by
  simp [fetch_token, hl, hx, hgt]

/-- Witness for C1: a cached entry expiring at 60000 is reused at time 0,
whatever the token endpoint would have answered. -/
theorem fetch_token_reuses_valid_entry_witness :
    cacheLookup [("t1", (⟨some "tok", some 60000⟩ : CacheEntry))] "t1"
        = some ⟨some "tok", some 60000⟩ ∧
    (⟨some "tok", some 60000⟩ : CacheEntry).expiration = some 60000 ∧
    (60000 : Int) > 0 ∧
    fetch_token [("t1", ⟨some "tok", some 60000⟩)] "t1" (some "key") 0
        (UpstreamTokenResponse.success none) =
      { result := FetchOutcome.ok (some "tok"),
        cache := [("t1", ⟨some "tok", some 60000⟩)],
        log := [LogLine.info ("Re-using existing token for tenant " ++ "t1")],
        networkCalls := 0 } :=
  ⟨rfl, rfl, by decide,
    fetch_token_reuses_valid_entry [("t1", ⟨some "tok", some 60000⟩)] "t1" (some "key") 0
      (UpstreamTokenResponse.success none) ⟨some "tok", some 60000⟩ 60000 rfl rfl (by decide)⟩

/-- Claim C2: when the cache entry for the tenant is absent or its
expiration is at most the current time, `fetch_token` issues exactly one
token request; and when that request succeeds with a well-formed body, the
tenant's cache entry is overwritten with the response's token and
expiration (and is the entry subsequently found for that tenant) and the
new token is returned. -/
theorem fetch_token_stale_refresh
    (cache : TokenCache) (tid : String) (key : Option String) (now : Int)
    (resp : UpstreamTokenResponse)
    (hstale : cacheLookup cache tid = none ∨
      ∃ entry x, cacheLookup cache tid = some entry ∧
        entry.expiration = some x ∧ x ≤ now) :
    (fetch_token cache tid key now resp).networkCalls = 1 ∧
    ∀ tok exp,
      resp = UpstreamTokenResponse.success (some ⟨JsonField.val tok, JsonField.val exp⟩) →
        (fetch_token cache tid key now resp).result = FetchOutcome.ok (some tok) ∧
        (fetch_token cache tid key now resp).cache
          = cacheInsert cache tid ⟨some tok, some exp⟩ ∧
        cacheLookup (fetch_token cache tid key now resp).cache tid
          = some ⟨some tok, some exp⟩ := by
  rw [fetch_token_stale_eq_refresh cache tid key now resp hstale]
  refine ⟨refreshToken_networkCalls cache tid resp, ?_⟩
  intro tok exp h
  subst h
  simp [refreshToken, storeToken_eq_cacheInsert, cacheLookup_cacheInsert_self,
    JsonField.toOption]

/-- Witness for C2: an entry that expired exactly at the current time is
refreshed by one request and overwritten with the response's token. -/
theorem fetch_token_stale_refresh_witness :
    ((⟨some "old", some 5⟩ : CacheEntry).expiration = some 5 ∧ (5 : Int) ≤ 5) ∧
    (fetch_token [("t1", ⟨some "old", some 5⟩)] "t1" (some "key") 5
        (UpstreamTokenResponse.success (some ⟨JsonField.val "new", JsonField.val 99⟩))).networkCalls = 1 ∧
    (fetch_token [("t1", ⟨some "old", some 5⟩)] "t1" (some "key") 5
        (UpstreamTokenResponse.success (some ⟨JsonField.val "new", JsonField.val 99⟩))).result
      = FetchOutcome.ok (some "new") ∧
    (fetch_token [("t1", ⟨some "old", some 5⟩)] "t1" (some "key") 5
        (UpstreamTokenResponse.success (some ⟨JsonField.val "new", JsonField.val 99⟩))).cache
      = cacheInsert [("t1", ⟨some "old", some 5⟩)] "t1" ⟨some "new", some 99⟩ := by
  have h := fetch_token_stale_refresh [("t1", ⟨some "old", some 5⟩)] "t1" (some "key") 5
    (UpstreamTokenResponse.success (some ⟨JsonField.val "new", JsonField.val 99⟩))
    (Or.inr ⟨⟨some "old", some 5⟩, 5, rfl, rfl, by decide⟩)
  exact ⟨⟨rfl, by decide⟩, h.1, (h.2 "new" 99 rfl).1, (h.2 "new" 99 rfl).2.1⟩

/-- Counterexample to claim C3 as stated: two failing runs that differ only
in the tenant id raise the very same error value (`raise e` re-raises the
underlying cause unchanged), so the propagated error does not carry the
tenant id — only the error log line does. -/
theorem fetch_token_error_lacks_tenant_id :
    (fetch_token [] "tenantA" (some "key") 0
        (UpstreamTokenResponse.raised "HTTP 500")).result =
      (fetch_token [] "tenantB" (some "key") 0
        (UpstreamTokenResponse.raised "HTTP 500")).result ∧
    "tenantA" ≠ "tenantB" :=
  ⟨rfl, by decide⟩

/-- Claim C3 (amended): on every upstream token-fetch failure — non-2xx
status or timeout (`raised`), or a malformed response body (missing
`result`, `result.token` or `result.expiration`) — `fetch_token` re-raises
the underlying error unchanged, writes an error log line naming the tenant
id and the cause, leaves the cache entry for the tenant unchanged (an old
entry untouched, an absent entry absent), and caches no failed result. -/
theorem fetch_token_failure_keeps_cache
    (cache : TokenCache) (tid : String) (key : Option String) (now : Int)
    (resp : UpstreamTokenResponse) (e : PyExn)
    (hfail : responseFailure resp = some e)
    (hstale : cacheLookup cache tid = none ∨
      ∃ entry x, cacheLookup cache tid = some entry ∧
        entry.expiration = some x ∧ x ≤ now) :
    fetch_token cache tid key now resp =
      { result := FetchOutcome.exn e, cache := cache,
        log := [LogLine.info ("Creating new token for tenant " ++ tid),
          LogLine.error ("Token fetch failed for tenant " ++ tid ++ ": " ++ pyExnStr e)],
        networkCalls := 1 } := by
  rw [fetch_token_stale_eq_refresh cache tid key now resp hstale]
  cases resp with
  | raised m =>
    simp only [responseFailure, Option.some.injEq] at hfail
    subst hfail
    simp [refreshToken]
  | success r =>
    cases r with
    | none =>
      simp only [responseFailure, Option.some.injEq] at hfail
      subst hfail
      simp [refreshToken]
    | some b =>
      obtain ⟨t0, x0⟩ := b
      by_cases ht : t0 = JsonField.absent
      · subst ht
        simp [responseFailure] at hfail
        subst hfail
        simp [refreshToken]
      · by_cases hx : x0 = JsonField.absent
        · subst hx
          simp [responseFailure, ht] at hfail
          subst hfail
          simp [refreshToken, ht]
        · simp [responseFailure, ht, hx] at hfail

/-- Witness for C3: a stale entry survives an HTTP 500 from the token
endpoint, whose error is re-raised and logged with the tenant id. -/
theorem fetch_token_failure_keeps_cache_witness :
    responseFailure (UpstreamTokenResponse.raised "HTTP 500")
        = some (PyExn.httpError "HTTP 500") ∧
    ((⟨some "old", some 5⟩ : CacheEntry).expiration = some 5 ∧ (5 : Int) ≤ 7) ∧
    fetch_token [("t1", ⟨some "old", some 5⟩)] "t1" (some "key") 7
        (UpstreamTokenResponse.raised "HTTP 500") =
      { result := FetchOutcome.exn (PyExn.httpError "HTTP 500"),
        cache := [("t1", ⟨some "old", some 5⟩)],
        log := [LogLine.info ("Creating new token for tenant " ++ "t1"),
          LogLine.error ("Token fetch failed for tenant " ++ "t1" ++ ": "
            ++ pyExnStr (PyExn.httpError "HTTP 500"))],
        networkCalls := 1 } :=
  ⟨rfl, ⟨rfl, by decide⟩,
    fetch_token_failure_keeps_cache [("t1", ⟨some "old", some 5⟩)] "t1" (some "key") 7
      (UpstreamTokenResponse.raised "HTTP 500") (PyExn.httpError "HTTP 500") rfl
      (Or.inr ⟨⟨some "old", some 5⟩, 5, rfl, rfl, by decide⟩)⟩

/-- Counterexample to claim C9 as stated: the reuse-path expiration
comparison is NOT defined on every reachable cache state. A 2xx token
response whose body is `{"result": {"token": "x", "expiration": null}}`
raises nothing — `fetch_token` returns the token "x" and stores the `None`
expiration — and the very next `fetch_token` call for that tenant raises
the uncaught `TypeError` of `None > time.time() * 1000` on the reuse
check. -/
theorem fetch_token_comparison_can_fail :
    (fetch_token [] "t1" (some "key") 0
        (UpstreamTokenResponse.success (some ⟨JsonField.val "x", JsonField.null⟩))).result
      = FetchOutcome.ok (some "x") ∧
    (fetch_token [] "t1" (some "key") 0
        (UpstreamTokenResponse.success (some ⟨JsonField.val "x", JsonField.null⟩))).cache
      = [("t1", ⟨some "x", none⟩)] ∧
    (fetch_token
        (fetch_token [] "t1" (some "key") 0
          (UpstreamTokenResponse.success (some ⟨JsonField.val "x", JsonField.null⟩))).cache
        "t1" (some "key") 0 (UpstreamTokenResponse.success none)).result
      = FetchOutcome.exn PyExn.noneGtError :=
  ⟨rfl, rfl, rfl⟩

/-- Claim C9 (amended): `fetch_token` writes the token and expiration
fields together and nothing else writes the cache, but the stored values
are the body's values unvalidated, so the reuse comparison is only
guaranteed on well-formed cache states (every entry holding a non-null
token and expiration): there `fetch_token` never raises the reuse-check
`TypeError`, and well-formedness is preserved by failing refreshes and by
refreshes whose 2xx body carries non-null token and expiration values —
but not by a 2xx body with a null field, which poisons the entry. -/
theorem fetch_token_comparison_defined_on_wf
    (cache : TokenCache) (tid : String) (key : Option String) (now : Int)
    (resp : UpstreamTokenResponse)
    (hc : cacheWF cache = true) :
    (fetch_token cache tid key now resp).result ≠ FetchOutcome.exn PyExn.noneGtError ∧
    ((responseFailure resp).isSome = true →
      cacheWF (fetch_token cache tid key now resp).cache = true) ∧
    (∀ tok exp,
      resp = UpstreamTokenResponse.success (some ⟨JsonField.val tok, JsonField.val exp⟩) →
      cacheWF (fetch_token cache tid key now resp).cache = true) := by
  cases hl : cacheLookup cache tid with
  | none =>
    have heq : fetch_token cache tid key now resp = refreshToken cache tid resp := by
      simp [fetch_token, hl]
    rw [heq]
    exact refreshToken_c9_cases cache tid resp hc
  | some entry =>
    have hwf := entryWF_of_cacheLookup cache tid entry hc hl
    cases hx : entry.expiration with
    | none => simp [entryWF, hx] at hwf
    | some x =>
      by_cases hgt : x > now
      · have heq : fetch_token cache tid key now resp =
            { result := FetchOutcome.ok entry.token, cache := cache,
              log := [LogLine.info ("Re-using existing token for tenant " ++ tid)],
              networkCalls := 0 } := by
          simp [fetch_token, hl, hx, hgt]
        rw [heq]
        exact ⟨by simp, fun _ => hc, fun _ _ _ => hc⟩
      · have heq : fetch_token cache tid key now resp = refreshToken cache tid resp := by
          simp [fetch_token, hl, hx, hgt]
        rw [heq]
        exact refreshToken_c9_cases cache tid resp hc

/-- Witness for the amended C9: a well-formed one-entry cache does not
trigger the reuse-check `TypeError`, and a refresh storing non-null values
keeps it well-formed. -/
theorem fetch_token_comparison_defined_on_wf_witness :
    cacheWF [("t1", (⟨some "tok", some 5⟩ : CacheEntry))] = true ∧
    (fetch_token [("t1", ⟨some "tok", some 5⟩)] "t1" (some "key") 7
        (UpstreamTokenResponse.success (some ⟨JsonField.val "new", JsonField.val 99⟩))).result
      ≠ FetchOutcome.exn PyExn.noneGtError ∧
    cacheWF (fetch_token [("t1", ⟨some "tok", some 5⟩)] "t1" (some "key") 7
        (UpstreamTokenResponse.success (some ⟨JsonField.val "new", JsonField.val 99⟩))).cache
      = true := by
  have h := fetch_token_comparison_defined_on_wf [("t1", ⟨some "tok", some 5⟩)] "t1"
    (some "key") 7
    (UpstreamTokenResponse.success (some ⟨JsonField.val "new", JsonField.val 99⟩)) (by decide)
  exact ⟨by decide, h.1, h.2.2 "new" 99 rfl⟩

/-- Claim C6: when the token is obtained and the downstream GET answers 2xx,
`call_ibm_storageinsights_api` returns exactly the response's content: `None`
for an empty body (a valid, non-error outcome — no exception, no parse
failure) and the parsed JSON body otherwise. -/
theorem call_api_success_returns_body
    (cache : TokenCache) (tid : String) (key : Option String) (now : Int)
    (tokResp : UpstreamTokenResponse) (content : Option Json) (tok : Option String)
    (htok : (fetch_token cache tid key now tokResp).result = FetchOutcome.ok tok) :
    (call_ibm_storageinsights_api cache tid key now tokResp
        (ApiGetResponse.success content)).result = ApiOutcome.ok content := by
  simp [call_ibm_storageinsights_api, htok]

/-- Witness for C6: a 200 response with an empty body yields `None` as a
non-error result. -/
theorem call_api_success_returns_body_witness :
    (fetch_token [("t1", (⟨some "tok", some 100⟩ : CacheEntry))] "t1" (some "key") 0
        (UpstreamTokenResponse.success none)).result = FetchOutcome.ok (some "tok") ∧
    (call_ibm_storageinsights_api [("t1", ⟨some "tok", some 100⟩)] "t1" (some "key") 0
        (UpstreamTokenResponse.success none) (ApiGetResponse.success none)).result
      = ApiOutcome.ok none :=
  ⟨rfl,
    call_api_success_returns_body [("t1", ⟨some "tok", some 100⟩)] "t1" (some "key") 0
      (UpstreamTokenResponse.success none) none (some "tok") rfl⟩

end SiMcp
